import Mathlib

/-!
Verification development for the object_recognizer repository
(src/src/object_recognizer_node.cpp).

The node wraps an OpenCV feature-matching pipeline: a single `ObjDetector`
holds a reference model (calibration image, its keypoints and descriptors)
computed once in the constructor, a single-slot buffer for the most recent
camera frame and map frame, and a `find_object` routine run on each tick
that has a pending frame.

External OpenCV collaborators (detector, extractor, matcher, the RANSAC
homography solver, perspective transform, grayscale conversion, cv_bridge
decoding) are modelled as an explicit environment `CVEnv` of pure
functions: the repository code only composes them, and every claim is
about that composition.  Distances (C++ `float` holding Hamming
distances) and coordinates are modelled as rationals.
-/

namespace ObjRec

/-- A 2D point in pixel space (cv::Point2f). -/
structure Pt where
  x : ℚ
  y : ℚ
deriving DecidableEq, Repr

/-- A feature keypoint (cv::KeyPoint); only its location is consumed by the node. -/
structure KeyPoint where
  pt : Pt
deriving DecidableEq, Repr

instance : Inhabited KeyPoint := ⟨⟨⟨0, 0⟩⟩⟩

/-- A feature descriptor row (one row of a cv::Mat of descriptors). -/
abbrev Descriptor := List ℕ

/-- A correspondence produced by the matcher (cv::DMatch). -/
structure DMatch where
  queryIdx : ℕ
  trainIdx : ℕ
  distance : ℚ
deriving DecidableEq, Repr

/-- An image (cv::Mat): pixel dimensions plus opaque pixel data. -/
structure Image where
  cols : ℕ
  rows : ℕ
  data : List ℕ
deriving DecidableEq, Repr

/-- An incoming ROS image message (sensor_msgs::Image), kept opaque. -/
structure ImageMsg where
  raw : List ℕ
deriving DecidableEq, Repr

/-- A homography matrix, kept opaque (only fed back to the perspective transform). -/
structure Hom where
  entries : List ℚ
deriving DecidableEq, Repr

/-- The returned object location (geometry_msgs::Point32). -/
structure Point32 where
  x : ℚ
  y : ℚ
  z : ℚ
deriving DecidableEq, Repr

/-- The two failure modes of cv::findHomography visible to the node: a
bad-argument assertion (fewer than 4 correspondences) and a numerical
failure (degenerate or singular configuration).  Both surface as a thrown
cv::Exception. -/
inductive CvError where
  | fewPoints
  | numeric
deriving DecidableEq, Repr

/-- The external OpenCV / cv_bridge collaborators used by the node, as pure
functions.  The repository configures: ORB detector, FREAK extractor,
BruteForce-Hamming matcher. -/
structure CVEnv where
  toCvCopy : ImageMsg → Option Image
  cvtGray : Image → Image
  detect : Image → List KeyPoint
  compute : Image → List KeyPoint → List Descriptor
  matchDesc : List Descriptor → List Descriptor → List DMatch
  solveH : List Pt → List Pt → Option Hom
  transform : Hom → Pt → Pt

/-- The reference model: calibration image, its keypoints and descriptors
(fields obj_img, obj_keypoints, obj_descriptors of ObjDetector). -/
structure RefModel where
  obj_img : Image
  obj_keypoints : List KeyPoint
  obj_descriptors : List Descriptor
deriving DecidableEq, Repr

/-- The mutable state of ObjDetector: the reference model plus the
single-slot buffers lastImageFrame / lastMapFrame (haveImageFrame and
haveMapFrame are set in the constructor but never read; the code tests
the pointers themselves, modelled as Option). -/
structure NodeState where
  ref : RefModel
  lastImageFrame : Option ImageMsg
  lastMapFrame : Option ImageMsg
deriving DecidableEq, Repr

/-! ## MatchFilter: the min/max distance scan and the good-match filter
(find_object, lines 91-110). -/

/-- The min_dist scan: `double min_dist = 100;` then
`if (dist < min_dist) min_dist = dist;` over all matches in order. -/
def min_dist (ms : List DMatch) : ℚ :=
  ms.foldl (fun acc m => if m.distance < acc then m.distance else acc) 100

/-- The max_dist scan: `double max_dist = 0;` then
`if (dist > max_dist) max_dist = dist;` over all matches in order
(computed by the code but never used afterwards). -/
def max_dist (ms : List DMatch) : ℚ :=
  ms.foldl (fun acc m => if acc < m.distance then m.distance else acc) 0

/-- The good-match filter: retain matches with `distance < 3 * min_dist`. -/
def good_matches (ms : List DMatch) : List DMatch :=
  ms.filter (fun m => m.distance < 3 * min_dist ms)

/-- Modelled from the spec: the MatchFilter minimum as the spec words it,
"min_dist = minimum distance over all matches (define as 0 if the input
is empty)".  Stated only to be compared against the min_dist the source
computes. -/
def spec_min_dist (ms : List DMatch) : ℚ :=
  match ms with
  | [] => 0
  | m :: rest => rest.foldl (fun acc x => min acc x.distance) m.distance

/-- Modelled from the spec: the MatchFilter retained set as the spec words
it, threshold 3 × spec_min_dist, keep distance strictly below it. -/
def spec_good_matches (ms : List DMatch) : List DMatch :=
  ms.filter (fun m => m.distance < 3 * spec_min_dist ms)

/-! ## GeometryEstimator (find_object, lines 122-144). -/

/-- Modelled from the spec: cv::findHomography (external OpenCV, not part
of this repository).  "Requires at least 4 point correspondences to
attempt fitting"; with fewer it raises a bad-argument error before the
robust RANSAC core (the `solve` parameter) is consulted; a numerical
failure of the robust core (degenerate or collinear configuration,
singular matrix) is raised as well.  Raised errors model the thrown
cv::Exception. -/
def findHomography (solve : List Pt → List Pt → Option Hom)
    (obj scene : List Pt) : Except CvError Hom :=
  if obj.length < 4 ∨ scene.length < 4 then .error .fewPoints
  else
    match solve obj scene with
    | some H => .ok H
    | none => .error .numeric

/-- The four corners of the calibration image,
(0,0), (cols,0), (cols,rows), (0,rows) (lines 126-130). -/
def obj_corners (cols rows : ℕ) : List Pt :=
  [⟨0, 0⟩, ⟨(cols : ℚ), 0⟩, ⟨(cols : ℚ), (rows : ℚ)⟩, ⟨0, (rows : ℚ)⟩]

/-- The try/catch block of find_object (lines 122-144): attempt the
homography, on success project the calibration-image corners into the
frame (the corners drawn on the output image); on any cv::Exception do
nothing — the not-found outcome, `none`. -/
def geometryStage (solve : List Pt → List Pt → Option Hom)
    (transform : Hom → Pt → Pt) (obj scene : List Pt)
    (cols rows : ℕ) : Option (List Pt) :=
  match findHomography solve obj scene with
  | .error _ => none
  | .ok H => some ((obj_corners cols rows).map (transform H))

/-! ## find_object (lines 60-157). -/

/-- Keypoints detected on the (grayscale) frame (line 84). -/
def frame_keypoints (env : CVEnv) (img : Image) : List KeyPoint :=
  env.detect img

/-- Descriptors computed on the frame keypoints (line 85). -/
def frame_descriptors (env : CVEnv) (img : Image) : List Descriptor :=
  env.compute img (env.detect img)

/-- Matches of the reference descriptors against the frame descriptors
(line 89), after the good-match filter (lines 104-110). -/
def pipeline_good (env : CVEnv) (ref : RefModel) (img : Image) : List DMatch :=
  good_matches (env.matchDesc ref.obj_descriptors (frame_descriptors env img))

/-- Reference-side points of the good matches:
obj_keypoints[good_matches[i].queryIdx].pt (line 118). -/
def obj_points (env : CVEnv) (ref : RefModel) (img : Image) : List Pt :=
  (pipeline_good env ref img).map fun m => (ref.obj_keypoints.getD m.queryIdx default).pt

/-- Frame-side points of the good matches:
img_keypoints[good_matches[i].trainIdx].pt (line 119). -/
def scene_points (env : CVEnv) (ref : RefModel) (img : Image) : List Pt :=
  (pipeline_good env ref img).map fun m => ((frame_keypoints env img).getD m.trainIdx default).pt

/-- What one invocation of find_object produces: the returned Point32,
plus the localization outcome of the geometry stage (the projected scene
corners drawn on the image, or `none` when the homography was not
found).  The C++ returns only the Point32; the corners are observable as
the lines drawn on the displayed image. -/
structure FindOutcome where
  location : Point32
  localization : Option (List Pt)
deriving DecidableEq, Repr

/-- find_object (lines 60-157).  cv_bridge decoding failure calls
exit(-1), modelled as `Except.error ()` (hard process failure — nothing
after it runs).  Otherwise the pipeline runs: grayscale conversion,
feature extraction, matching, filtering, geometry stage, and the
returned location is the placeholder (0,0,0) of lines 152-155. -/
def find_object (env : CVEnv) (ref : RefModel) (msg : ImageMsg)
    (mapMsg : Option ImageMsg) : Except Unit FindOutcome :=
  match env.toCvCopy msg with
  | none => .error ()
  | some colorImg =>
      let img := env.cvtGray colorImg
      .ok { location := ⟨0, 0, 0⟩
            localization :=
              geometryStage env.solveH env.transform
                (obj_points env ref img) (scene_points env ref img)
                ref.obj_img.cols ref.obj_img.rows }

/-! ## detect and the frame callbacks (lines 159-174). -/

/-- detect (lines 159-166): if lastImageFrame is non-null, run find_object
on it (the commented-out `&& lastMapFrame` means the map slot is not
required), then null both slots.  A decode failure inside find_object
propagates as the hard failure.  The returned Option FindOutcome is
`none` when the slot was empty (pipeline not invoked). -/
def detect (env : CVEnv) (s : NodeState) :
    Except Unit (NodeState × Option FindOutcome) :=
  match s.lastImageFrame with
  | none => .ok (s, none)
  | some msg =>
      match find_object env s.ref msg s.lastMapFrame with
      | .error e => .error e
      | .ok out =>
          .ok ({ s with lastImageFrame := none, lastMapFrame := none }, some out)

/-- process_image_frame (lines 168-170): store the newest frame,
overwriting any pending one. -/
def process_image_frame (s : NodeState) (msg : ImageMsg) : NodeState :=
  { s with lastImageFrame := some msg }

/-- process_map_frame (lines 172-174): store the newest map frame. -/
def process_map_frame (s : NodeState) (msg : ImageMsg) : NodeState :=
  { s with lastMapFrame := some msg }

/-- The ObjDetector constructor (lines 38-55): build the reference model
from the calibration image and start with both slots empty. -/
def ObjDetector_init (env : CVEnv) (calib : Image) : NodeState :=
  let kps := env.detect calib
  { ref := { obj_img := calib, obj_keypoints := kps
             obj_descriptors := env.compute calib kps }
    lastImageFrame := none
    lastMapFrame := none }

/-! ## Concrete sample data used by the witnesses. -/

/-- A frame message the sample environment decodes successfully. -/
def sampleMsg : ImageMsg := ⟨[1]⟩

/-- A frame message the sample environment fails to decode. -/
def badMsg : ImageMsg := ⟨[]⟩

/-- A concrete, fully computable environment: five keypoints per image,
constant descriptors, one unit-distance match per reference descriptor,
and a robust solver that always fails numerically. -/
def sampleEnv : CVEnv where
  toCvCopy := fun m => if m.raw = [] then none else some ⟨2, 2, m.raw⟩
  cvtGray := fun i => i
  detect := fun _ => [⟨⟨0, 0⟩⟩, ⟨⟨1, 0⟩⟩, ⟨⟨1, 1⟩⟩, ⟨⟨0, 1⟩⟩, ⟨⟨2, 2⟩⟩]
  compute := fun _ kps => kps.map fun _ => [0]
  matchDesc := fun a b =>
    if a = [] ∨ b = [] then [] else [⟨0, 0, 1⟩, ⟨1, 1, 1⟩, ⟨2, 2, 1⟩, ⟨3, 3, 1⟩]
  solveH := fun _ _ => none
  transform := fun _ p => p

/-- A second environment, differing from sampleEnv in every collaborator
that could matter, used to witness independence statements. -/
def sampleEnv2 : CVEnv where
  toCvCopy := fun _ => some ⟨3, 3, []⟩
  cvtGray := fun i => i
  detect := fun _ => []
  compute := fun _ _ => []
  matchDesc := fun _ _ => []
  solveH := fun _ _ => some ⟨[1]⟩
  transform := fun _ _ => ⟨7, 7⟩

/-- The node state right after the constructor ran on a 2×2 calibration
image, under sampleEnv. -/
def sampleState0 : NodeState := ObjDetector_init sampleEnv ⟨2, 2, [5]⟩

/-- The sample reference model. -/
def sampleRef : RefModel := sampleState0.ref

/-- sampleState0 with a pending image frame. -/
def sampleStateP : NodeState := process_image_frame sampleState0 sampleMsg

/-! ## MatchFilter lemmas. -/

/-- The running minimum of the scan never exceeds its starting value. -/
theorem min_scan_le_init (l : List DMatch) (a : ℚ) :
    l.foldl (fun acc m => if m.distance < acc then m.distance else acc) a ≤ a := by
  induction l generalizing a with
  | nil => simp
  | cons m t ih =>
    simp only [List.foldl_cons]
    split
    · exact le_trans (ih _) (le_of_lt (by assumption))
    · exact ih _

/-- The running minimum of the scan is a lower bound of every distance seen. -/
theorem min_scan_le_mem (l : List DMatch) (a : ℚ) :
    ∀ x ∈ l, l.foldl (fun acc m => if m.distance < acc then m.distance else acc) a
      ≤ x.distance := by
  induction l generalizing a with
  | nil => simp
  | cons m t ih =>
    intro x hx
    rcases List.mem_cons.mp hx with hx | hx
    · subst hx
      simp only [List.foldl_cons]
      refine le_trans (min_scan_le_init t _) ?_
      split
      · exact le_refl _
      · exact le_of_not_lt (by assumption)
    · exact ih _ x hx

/-- The running minimum of the scan is its starting value or one of the
distances seen. -/
theorem min_scan_attained (l : List DMatch) (a : ℚ) :
    l.foldl (fun acc m => if m.distance < acc then m.distance else acc) a = a ∨
      ∃ x ∈ l, l.foldl (fun acc m => if m.distance < acc then m.distance else acc) a
        = x.distance := by
  induction l generalizing a with
  | nil => exact Or.inl rfl
  | cons m t ih =>
    simp only [List.foldl_cons]
    rcases ih (if m.distance < a then m.distance else a) with h | ⟨x, hx, hfx⟩
    · rw [h]
      split
      · exact Or.inr ⟨m, List.mem_cons_self m t, rfl⟩
      · exact Or.inl rfl
    · exact Or.inr ⟨x, List.mem_cons_of_mem m hx, hfx⟩

/-- C3: on match distances [1, 2, 3, 10, 50] the scan yields min_dist 1,
the threshold 3 × min_dist is 3, and the retained good matches are
exactly the two with distances 1 and 2. -/
theorem filter_on_example_distances :
    min_dist [⟨0, 0, 1⟩, ⟨1, 1, 2⟩, ⟨2, 2, 3⟩, ⟨3, 3, 10⟩, ⟨4, 4, 50⟩] = 1 ∧
    3 * min_dist [⟨0, 0, 1⟩, ⟨1, 1, 2⟩, ⟨2, 2, 3⟩, ⟨3, 3, 10⟩, ⟨4, 4, 50⟩] = 3 ∧
    good_matches [⟨0, 0, 1⟩, ⟨1, 1, 2⟩, ⟨2, 2, 3⟩, ⟨3, 3, 10⟩, ⟨4, 4, 50⟩]
      = [⟨0, 0, 1⟩, ⟨1, 1, 2⟩] := by
  refine ⟨?_, ?_, ?_⟩ <;> norm_num [good_matches, min_dist, List.filter]

/-- C2 counterexample: on match distances [200, 300] the code computes
min_dist = 100 (the scan starts at 100, not at the true minimum 200), so
the retained set {200} differs from the set {200, 300} the claim
describes (threshold 3 × 200 = 600 would keep both); on empty input the
code computes 100 where the claim says 0. -/
theorem filter_min_init_cex :
    min_dist [⟨0, 0, 200⟩, ⟨1, 1, 300⟩] = 100 ∧
    spec_min_dist [⟨0, 0, 200⟩, ⟨1, 1, 300⟩] = 200 ∧
    good_matches [⟨0, 0, 200⟩, ⟨1, 1, 300⟩] = [⟨0, 0, 200⟩] ∧
    good_matches [⟨0, 0, 200⟩, ⟨1, 1, 300⟩]
      ≠ spec_good_matches [⟨0, 0, 200⟩, ⟨1, 1, 300⟩] ∧
    min_dist [] = 100 ∧ spec_min_dist [] = 0 := by
  refine ⟨?_, ?_, ?_, ?_, ?_, ?_⟩ <;>
    norm_num [good_matches, min_dist, spec_good_matches, spec_min_dist, List.filter]

/-- C2 (amended): min_dist is the minimum of the initial value 100 and
all match distances (so 100 on empty input, and equal to the true
minimum only when that minimum is below 100); the filter retains exactly
the matches with distance strictly below 3 × min_dist. -/
theorem filter_retains_below_threshold (ms : List DMatch) (m : DMatch) :
    min_dist ms ≤ 100 ∧
    (∀ x ∈ ms, min_dist ms ≤ x.distance) ∧
    (min_dist ms = 100 ∨ ∃ x ∈ ms, min_dist ms = x.distance) ∧
    (m ∈ good_matches ms ↔ m ∈ ms ∧ m.distance < 3 * min_dist ms) := by
  refine ⟨min_scan_le_init ms 100, min_scan_le_mem ms 100, min_scan_attained ms 100, ?_⟩
  simp [good_matches, List.mem_filter]

/-- C1: whatever the environment, reference model, frame and map message,
a run of find_object that completes (the frame decoded) returns the
fixed placeholder point (0, 0, 0); the location is never taken from the
homography or the projected corners. -/
theorem find_object_returns_placeholder (env : CVEnv) (ref : RefModel)
    (msg : ImageMsg) (mapMsg : Option ImageMsg) (out : FindOutcome)
    (h : find_object env ref msg mapMsg = .ok out) :
    out.location = ⟨0, 0, 0⟩ := by
  unfold find_object at h
  split at h
  · cases h
  · cases h
    rfl

/-- C1 witness: the placeholder comes out of a concrete run. -/
theorem find_object_returns_placeholder_witness :
    (⟨⟨0, 0, 0⟩, none⟩ : FindOutcome).location = ⟨0, 0, 0⟩ :=
  find_object_returns_placeholder sampleEnv sampleRef sampleMsg none
    ⟨⟨0, 0, 0⟩, none⟩ (by
      norm_num [find_object, sampleEnv, sampleRef, sampleState0, ObjDetector_init,
        sampleMsg, geometryStage, findHomography, obj_points, scene_points,
        pipeline_good, frame_keypoints, frame_descriptors, good_matches, min_dist,
        List.filter])

/-- The state left behind by the tick that consumed sampleStateP. -/
def clearedState : NodeState :=
  { sampleStateP with lastImageFrame := none, lastMapFrame := none }

/-- The outcome of a pipeline run whose homography was not found. -/
def notFoundOutcome : FindOutcome := ⟨⟨0, 0, 0⟩, none⟩

/-- C4: with fewer than 4 point correspondences the geometry stage yields
the not-found outcome; the answer is the same under every robust solver
(the solver is never consulted: cv::findHomography raises the
bad-argument error first), and the stage is a total function — the
raised error is caught, nothing propagates. -/
theorem estimate_few_points_not_found
    (solve solve2 : List Pt → List Pt → Option Hom) (tr : Hom → Pt → Pt)
    (obj scene : List Pt) (cols rows : ℕ) (h : obj.length < 4) :
    geometryStage solve tr obj scene cols rows = none ∧
    findHomography solve obj scene = .error .fewPoints ∧
    findHomography solve obj scene = findHomography solve2 obj scene := by
  have hfew : ∀ sv : List Pt → List Pt → Option Hom,
      findHomography sv obj scene = .error .fewPoints := by
    intro sv
    unfold findHomography
    rw [if_pos (Or.inl h)]
  refine ⟨?_, hfew solve, (hfew solve).trans (hfew solve2).symm⟩
  unfold geometryStage
  rw [hfew solve]

/-- C4 witness: one correspondence, two different solvers. -/
theorem estimate_few_points_not_found_witness :
    geometryStage sampleEnv.solveH sampleEnv.transform [⟨0, 0⟩] [⟨0, 0⟩] 2 2 = none ∧
    findHomography sampleEnv.solveH [⟨0, 0⟩] [⟨0, 0⟩] = .error .fewPoints ∧
    findHomography sampleEnv.solveH [⟨0, 0⟩] [⟨0, 0⟩]
      = findHomography sampleEnv2.solveH [⟨0, 0⟩] [⟨0, 0⟩] :=
  estimate_few_points_not_found sampleEnv.solveH sampleEnv2.solveH
    sampleEnv.transform [⟨0, 0⟩] [⟨0, 0⟩] 2 2 (by norm_num)

/-- C5: when the robust solver fails numerically on the correspondences
derived from the pending frame, the tick completes normally: find_object
yields the not-found outcome (error caught, nothing raised to the
caller), and the resulting state is the previous one with only the two
slots cleared — the next tick starts from an intact state. -/
theorem numeric_failure_recoverable (env : CVEnv) (s : NodeState)
    (msg : ImageMsg) (colorImg : Image)
    (hpend : s.lastImageFrame = some msg)
    (hdec : env.toCvCopy msg = some colorImg)
    (hfail : env.solveH (obj_points env s.ref (env.cvtGray colorImg))
      (scene_points env s.ref (env.cvtGray colorImg)) = none) :
    detect env s =
      .ok ({ s with lastImageFrame := none, lastMapFrame := none },
        some ⟨⟨0, 0, 0⟩, none⟩) := by
  have hgeo : geometryStage env.solveH env.transform
      (obj_points env s.ref (env.cvtGray colorImg))
      (scene_points env s.ref (env.cvtGray colorImg))
      s.ref.obj_img.cols s.ref.obj_img.rows = none := by
    unfold geometryStage findHomography
    rw [hfail]
    by_cases hlen : (obj_points env s.ref (env.cvtGray colorImg)).length < 4 ∨
        (scene_points env s.ref (env.cvtGray colorImg)).length < 4
    · rw [if_pos hlen]
    · rw [if_neg hlen]
  have hfo : find_object env s.ref msg s.lastMapFrame = .ok ⟨⟨0, 0, 0⟩, none⟩ := by
    simp only [find_object, hdec]
    rw [hgeo]
  simp only [detect, hpend, hfo]

/-- C5 witness: the sample solver always fails numerically; the tick on
the pending sample frame completes with the not-found outcome. -/
theorem numeric_failure_recoverable_witness :
    detect sampleEnv sampleStateP =
      .ok ({ sampleStateP with lastImageFrame := none, lastMapFrame := none },
        some ⟨⟨0, 0, 0⟩, none⟩) :=
  numeric_failure_recoverable sampleEnv sampleStateP sampleMsg ⟨2, 2, [1]⟩
    rfl rfl rfl

/-- C6: a frame the bridge cannot decode makes find_object report the
hard failure (the modelled exit(-1)) — for every reference model and map
message — and the tick holding that frame propagates it; the pipeline
never continues past the decode on that frame. -/
theorem decode_failure_hard (env : CVEnv) (ref : RefModel) (msg : ImageMsg)
    (mapMsg : Option ImageMsg) (s : NodeState)
    (hdec : env.toCvCopy msg = none) (hpend : s.lastImageFrame = some msg) :
    find_object env ref msg mapMsg = .error () ∧ detect env s = .error () := by
  have hfo : ∀ (r : RefModel) (mm : Option ImageMsg),
      find_object env r msg mm = .error () := by
    intro r mm
    simp only [find_object, hdec]
  exact ⟨hfo ref mapMsg, by simp only [detect, hpend, hfo]⟩

/-- C6 witness: the sample environment rejects the empty message. -/
theorem decode_failure_hard_witness :
    find_object sampleEnv sampleRef badMsg none = .error () ∧
    detect sampleEnv (process_image_frame sampleState0 badMsg) = .error () :=
  decode_failure_hard sampleEnv sampleRef badMsg none
    (process_image_frame sampleState0 badMsg) rfl rfl

/-- C7: a completed tick that invoked the pipeline (it produced an
outcome) leaves both slots empty, whether the localization succeeded or
failed; a tick on an empty slot is a no-op — state unchanged, pipeline
not invoked (the result is the same under any other environment). -/
theorem tick_clears_slot (env env2 : CVEnv) (s s2 : NodeState)
    (out : Option FindOutcome) (h : detect env s = .ok (s2, out)) :
    (out ≠ none → s2.lastImageFrame = none ∧ s2.lastMapFrame = none) ∧
    (s.lastImageFrame = none →
      s2 = s ∧ out = none ∧ detect env s = detect env2 s) := by
  constructor
  · intro hsome
    cases hp : s.lastImageFrame with
    | none =>
      simp only [detect, hp, Except.ok.injEq, Prod.mk.injEq] at h
      exact absurd h.2.symm hsome
    | some msg =>
      simp only [detect, hp] at h
      cases hf : find_object env s.ref msg s.lastMapFrame with
      | error e =>
        simp only [hf] at h
        exact Except.noConfusion h
      | ok o =>
        simp only [hf, Except.ok.injEq, Prod.mk.injEq] at h
        obtain ⟨hs2, -⟩ := h
        rw [← hs2]
        exact ⟨rfl, rfl⟩
  · intro hp
    simp only [detect, hp, Except.ok.injEq, Prod.mk.injEq] at h
    obtain ⟨hs2, hout⟩ := h
    exact ⟨hs2.symm, hout.symm, by simp only [detect, hp]⟩

/-- C7 witness: a tick on the pending sample frame under the trivial
environment ends with both slots cleared. -/
theorem tick_clears_slot_witness :
    (some notFoundOutcome ≠ none →
      clearedState.lastImageFrame = none ∧ clearedState.lastMapFrame = none) ∧
    (sampleStateP.lastImageFrame = none →
      clearedState = sampleStateP ∧ some notFoundOutcome = none ∧
        detect sampleEnv2 sampleStateP = detect sampleEnv sampleStateP) :=
  tick_clears_slot sampleEnv2 sampleEnv sampleStateP clearedState
    (some notFoundOutcome) rfl

/-- C8: a second frame arriving before the tick overwrites the first: the
resulting state equals the one where only the second frame ever arrived,
the slot holds the second frame, and every subsequent tick (under any
environment) behaves as if the first frame never existed — it is never
seen by feature extraction. -/
theorem latest_frame_wins (s : NodeState) (f1 f2 : ImageMsg) (env : CVEnv) :
    process_image_frame (process_image_frame s f1) f2 = process_image_frame s f2 ∧
    (process_image_frame (process_image_frame s f1) f2).lastImageFrame = some f2 ∧
    detect env (process_image_frame (process_image_frame s f1) f2)
      = detect env (process_image_frame s f2) :=
  ⟨rfl, rfl, rfl⟩

/-- C9: a completed tick never modifies the reference model: obj_img,
obj_keypoints and obj_descriptors survive detect unchanged (find_object
is embedded as a pure function of the state because the source writes no
member fields there). -/
theorem reference_model_immutable (env : CVEnv) (s s2 : NodeState)
    (out : Option FindOutcome) (h : detect env s = .ok (s2, out)) :
    s2.ref = s.ref := by
  cases hp : s.lastImageFrame with
  | none =>
    simp only [detect, hp, Except.ok.injEq, Prod.mk.injEq] at h
    rw [← h.1]
  | some msg =>
    simp only [detect, hp] at h
    cases hf : find_object env s.ref msg s.lastMapFrame with
    | error e =>
      simp only [hf] at h
      exact Except.noConfusion h
    | ok o =>
      simp only [hf, Except.ok.injEq, Prod.mk.injEq] at h
      rw [← h.1]

/-- C9 witness: the reference model survives a concrete tick. -/
theorem reference_model_immutable_witness :
    clearedState.ref = sampleStateP.ref :=
  reference_model_immutable sampleEnv2 sampleStateP clearedState
    (some notFoundOutcome) rfl

/-- C10: the map message never influences the outcome: find_object gives
identical results under any two map messages, a tick with a pending
image frame always invokes the pipeline (its result is exactly
find_object mapped over the cleared state, whatever the map slot holds),
and ticks differing only in the map slot coincide. -/
theorem map_frame_irrelevant (env : CVEnv) (ref : RefModel) (msg : ImageMsg)
    (mm1 mm2 : Option ImageMsg) (s : NodeState) (f : ImageMsg)
    (hpend : s.lastImageFrame = some f) :
    find_object env ref msg mm1 = find_object env ref msg mm2 ∧
    detect env s
      = (find_object env s.ref f s.lastMapFrame).map
          (fun out => ({ s with lastImageFrame := none, lastMapFrame := none },
            some out)) ∧
    detect env { s with lastMapFrame := mm1 }
      = detect env { s with lastMapFrame := mm2 } := by
  have hfo : ∀ (r : RefModel) (m : ImageMsg) (a b : Option ImageMsg),
      find_object env r m a = find_object env r m b := fun r m a b => rfl
  refine ⟨hfo ref msg mm1 mm2, ?_, ?_⟩
  · cases hf : find_object env s.ref f s.lastMapFrame with
    | error e => simp [detect, hpend, hf, Except.map]
    | ok o => simp [detect, hpend, hf, Except.map]
  · simp only [detect, hpend]
    rw [hfo s.ref f mm1 mm2]

/-- C10 witness: at a concrete pending state, the two map-slot variants
of the tick coincide and find_object ignores the map message. -/
theorem map_frame_irrelevant_witness :
    find_object sampleEnv2 sampleRef sampleMsg none
      = find_object sampleEnv2 sampleRef sampleMsg (some badMsg) ∧
    detect sampleEnv2 sampleStateP
      = (find_object sampleEnv2 sampleStateP.ref sampleMsg
          sampleStateP.lastMapFrame).map
          (fun out =>
            ({ sampleStateP with lastImageFrame := none, lastMapFrame := none },
              some out)) ∧
    detect sampleEnv2 { sampleStateP with lastMapFrame := none }
      = detect sampleEnv2 { sampleStateP with lastMapFrame := some badMsg } :=
  map_frame_irrelevant sampleEnv2 sampleRef sampleMsg none (some badMsg)
    sampleStateP sampleMsg rfl

end ObjRec
